import Mathlib

/-!
Shallow embedding of the integrity-check and shrinkage-diagnosis subsystem of
`src/generate_data/run_data_pipeline.py` (USAJobs data pipeline), together
with proofs settling the frozen claims about it.

Modelling conventions:
* A loaded table (`pandas.DataFrame`) is a `Table`: a list of column names and
  a list of rows; a row maps a column name to `Option String`, where `none`
  models a missing column or a null (`NaN`) cell, and `some v` a string cell
  (the script always converts identifiers with `astype(str)`).  Display-only
  fields read with `Series.get` render a null cell as the default string; this
  only affects the text of a report, never a branch the code takes.
* A file on disk at a given moment is a `FileData`: either `unreadable`
  (any exception while reading or parsing it, e.g. a failed
  `os.path.getsize` or `pd.read_parquet`) or a parsed `table`.
* Python `set(...)` values are deduplicated lists (`List.dedup`); set
  difference is `List.filter` on non-membership, as in `old_ids - current_ids`.
* The snapshot dictionary `initial_counts` is an association list built by
  `record_initial_job_counts`; `initial_counts.get(file, 0)` is `lookup0`.
* `initial_sizes` / byte sizes are read only for console output and never
  influence a decision (`# Only check job counts - file size doesn't matter`),
  so they are omitted from the embedding.
* Console output carrying the decision-relevant content of
  `diagnose_shrinkage` is reified as a `DiagReport` value; the checker's
  returned pair `(files_ok, files_changed)` is a `Verdict`.
-/

namespace Pipeline

/-- The snake_case identifier column name recognized by the script. -/
def snakeCol : String := "usajobs_control_number"

/-- The camelCase identifier column name recognized by the script. -/
def camelCol : String := "usajobsControlNumber"

/-- Display column: position title. -/
def titleCol : String := "positionTitle"

/-- Display column: hiring agency name. -/
def agencyCol : String := "hiringAgencyName"

/-- Display column: position open date. -/
def openDateCol : String := "positionOpenDate"

/-- Default string used by the script when a display field is absent. -/
def unknownVal : String := "Unknown"

/-- A loaded tabular file: its column names and its rows.  A row yields
`none` for a column that is absent or holds a null value. -/
structure Table where
  cols : List String
  rows : List (String → Option String)

/-- The state of a tracked file at one moment: unreadable (loading or parsing
raises) or successfully loaded. -/
inductive FileData where
  | unreadable
  | table (t : Table)

/-- Embedding of `set(df[c].dropna().astype(str))`: the distinct non-null
string values of column `c`.  Null cells are dropped by `filterMap`; empty
strings are kept, exactly as `dropna` keeps them. -/
def colIds (t : Table) (c : String) : List String :=
  (t.rows.filterMap (fun r => r c)).dedup

/-- Embedding of `save_initial_snapshot`: job-ID set of a file before
collection.  Uses the snake_case column if present, else the camelCase one,
else the empty set; any exception also yields the empty set. -/
def save_initial_snapshot (fd : FileData) : List String :=
  match fd with
  | FileData.unreadable => []
  | FileData.table t =>
    if snakeCol ∈ t.cols then colIds t snakeCol
    else if camelCol ∈ t.cols then colIds t camelCol
    else []

/-- The row count recorded for a file at snapshot time: `len(df)` when it
loads, `0` on any exception (`# Assume new file or error`). -/
def initialCountOf (fd : FileData) : Nat :=
  match fd with
  | FileData.unreadable => 0
  | FileData.table t => t.rows.length

/-- Embedding of `record_initial_job_counts`: the `initial_counts`
dictionary, one entry per globbed file, mapping the path to its row count
(0 if unreadable). -/
def record_initial_job_counts (files : List String) (snap : String → FileData) :
    List (String × Nat) :=
  files.map (fun p => (p, initialCountOf (snap p)))

/-- Embedding of `initial_counts.get(file, 0)`: dictionary lookup with
default 0. -/
def lookup0 (m : List (String × Nat)) (k : String) : Nat :=
  match m.find? (fun kv => kv.1 == k) with
  | some kv => kv.2
  | none => 0

/-- Embedding of `Series.get(c, default)` on a row of a table with columns
`cols`: the value if the column is present (nulls render as the default in
the script's printout; see the header note), otherwise `none` / the
default. -/
def rowGet (cols : List String) (r : String → Option String) (c : String) :
    Option String :=
  if c ∈ cols then r c else none

/-- One line of the `Examples of removed jobs` listing: the fields printed for
a historical row of a removed job. -/
structure JobDetail where
  control : Option String
  title : String
  agency : String
  openDate : String
deriving DecidableEq

/-- Build the printed fields from a historical row, as in the
`missing_jobs.iterrows()` loop: `job.get('usajobs_control_number',
job.get('usajobsControlNumber'))` and the three display fields with
default `'Unknown'`. -/
def mkJobDetail (cols : List String) (r : String → Option String) : JobDetail :=
  { control := (rowGet cols r snakeCol).orElse (fun _ => rowGet cols r camelCol)
    title := (rowGet cols r titleCol).getD unknownVal
    agency := (rowGet cols r agencyCol).getD unknownVal
    openDate := (rowGet cols r openDateCol).getD unknownVal }

/-- The decision-relevant content of one `diagnose_shrinkage` run. -/
inductive DiagReport where
  /-- Any exception during diagnosis, caught by the outer `try`. -/
  | errorDiag
  /-- Fetching the committed version failed or returned nothing: counts-only
  degraded report. -/
  | noHistorical (initialCount currentCount : Nat)
  /-- Neither recognized identifier column in the historical table. -/
  | noIdColumn (initialCount currentCount : Nat)
  /-- Between 1 and 10 removed identifiers: full diff plus resolved details
  of the removed jobs. -/
  | detailed (initialCount currentCount : Nat) (removed added : List String)
      (details : List JobDetail)
  /-- More than 10 removed identifiers: diff with total count and a
  5-identifier sample. -/
  | sampled (initialCount currentCount : Nat) (removed added : List String)
      (total : Nat) (sample : List String)
  /-- Diff computed but no identifier was removed. -/
  | noRemoved (initialCount currentCount : Nat) (removed added : List String)
deriving DecidableEq

/-- The removed-identifier set carried by a report (empty when the diff was
not computed). -/
def DiagReport.removedIds : DiagReport → List String
  | DiagReport.detailed _ _ r _ _ => r
  | DiagReport.sampled _ _ r _ _ _ => r
  | DiagReport.noRemoved _ _ r _ => r
  | _ => []

/-- The added-identifier set carried by a report. -/
def DiagReport.addedIds : DiagReport → List String
  | DiagReport.detailed _ _ _ a _ => a
  | DiagReport.sampled _ _ _ a _ _ => a
  | DiagReport.noRemoved _ _ _ a => a
  | _ => []

/-- The environment `diagnose_shrinkage` reads for one file: the current file
state on disk, and the outcome of fetching the last committed version
(`none`: `git show` fails or yields no bytes; `some unreadable`: bytes fetched
but `pd.read_parquet` on them raises; `some (table old)`: parsed). -/
structure DiagEnv where
  current : FileData
  historical : Option FileData

/-- The identifier-diff part of `diagnose_shrinkage`, for the column `c`
selected from the historical table.  `current_df[c]` raises `KeyError` when
the current table lacks the column, which the outer `try` turns into an
error report. -/
def diffReport (initial_count : Nat) (cur old : Table) (c : String) : DiagReport :=
  if c ∈ cur.cols then
    let old_ids := colIds old c
    let current_ids := colIds cur c
    let missing_ids := old_ids.filter (fun x => !current_ids.contains x)
    let new_ids := current_ids.filter (fun x => !old_ids.contains x)
    if missing_ids ≠ [] ∧ missing_ids.length ≤ 10 then
      let sample_missing := missing_ids.take 10
      let missing_jobs := old.rows.filter (fun r =>
        match r c with
        | some v => sample_missing.contains v
        | none => false)
      DiagReport.detailed initial_count cur.rows.length missing_ids new_ids
        (missing_jobs.map (mkJobDetail old.cols))
    else if missing_ids ≠ [] then
      DiagReport.sampled initial_count cur.rows.length missing_ids new_ids
        missing_ids.length (missing_ids.take 5)
    else
      DiagReport.noRemoved initial_count cur.rows.length missing_ids new_ids
  else
    DiagReport.errorDiag

/-- Embedding of `diagnose_shrinkage`: load the current table, fetch and
parse the historical version, select the identifier column from the
historical table (snake_case first), and compute the diff report.  Every
exception is caught by the outer `try` and becomes `errorDiag`. -/
def diagnose_shrinkage (env : DiagEnv) (initial_count : Nat) : DiagReport :=
  match env.current with
  | FileData.unreadable => DiagReport.errorDiag
  | FileData.table cur =>
    match env.historical with
    | none => DiagReport.noHistorical initial_count cur.rows.length
    | some FileData.unreadable => DiagReport.errorDiag
    | some (FileData.table old) =>
      if snakeCol ∈ old.cols then diffReport initial_count cur old snakeCol
      else if camelCol ∈ old.cols then diffReport initial_count cur old camelCol
      else DiagReport.noIdColumn initial_count cur.rows.length

/-- The pair returned by `check_file_sizes_vs_initial`:
`(files_ok, files_changed)`. -/
structure Verdict where
  ok : Bool
  changed : Bool
deriving DecidableEq

/-- The per-file loop of `check_file_sizes_vs_initial`, accumulating
`size_checks`, `files_changed` and `shrunken_files` in traversal order.  An
unreadable file appends `False` to `size_checks`; a file with
`current_count < initial_count` appends `False` and is marked shrunken; growth
appends `True` and sets `files_changed`; an unchanged file appends `True`. -/
def checkLoop (data : String → FileData) (ic : List (String × Nat)) :
    List String → List Bool × Bool × List String
  | [] => ([], false, [])
  | f :: fs =>
    let rest := checkLoop data ic fs
    match data f with
    | FileData.unreadable => (false :: rest.1, rest.2.1, rest.2.2)
    | FileData.table t =>
      if t.rows.length < lookup0 ic f then
        (false :: rest.1, rest.2.1, f :: rest.2.2)
      else if lookup0 ic f < t.rows.length then
        (true :: rest.1, true, rest.2.2)
      else
        (true :: rest.1, rest.2.1, rest.2.2)

/-- Embedding of `check_file_sizes_vs_initial`: run the per-file loop,
diagnose every shrunken file, and return `(False, False)` when any check
failed, else `(True, files_changed)` — together with the diagnosis reports
emitted. -/
def check_file_sizes_vs_initial (files : List String) (data : String → FileData)
    (hist : String → Option FileData) (ic : List (String × Nat)) :
    Verdict × List DiagReport :=
  let res := checkLoop data ic files
  let diags := res.2.2.map (fun f =>
    diagnose_shrinkage { current := data f, historical := hist f } (lookup0 ic f))
  if res.1.all (fun b => b) then ({ ok := true, changed := res.2.1 }, diags)
  else ({ ok := false, changed := false }, diags)

/-- Specification of one file's `size_checks` entry. -/
def perCheck (data : String → FileData) (ic : List (String × Nat)) (f : String) :
    Bool :=
  match data f with
  | FileData.unreadable => false
  | FileData.table t => !decide (t.rows.length < lookup0 ic f)

/-- Specification of "this file grew" (the branch that sets `files_changed`). -/
def grewFile (data : String → FileData) (ic : List (String × Nat)) (f : String) :
    Bool :=
  match data f with
  | FileData.unreadable => false
  | FileData.table t => decide (lookup0 ic f < t.rows.length)

/-- Specification of "this file lost jobs" (the branch that marks it
shrunken). -/
def shrunkFile (data : String → FileData) (ic : List (String × Nat)) (f : String) :
    Bool :=
  match data f with
  | FileData.unreadable => false
  | FileData.table t => decide (t.rows.length < lookup0 ic f)

/-- The identifier column the script selects from a table: the snake_case
name if present, else the camelCase one, else none. -/
def idColOf (t : Table) : Option String :=
  if snakeCol ∈ t.cols then some snakeCol
  else if camelCol ∈ t.cols then some camelCol
  else none

/-- Abbreviation for the removed-identifier set `old_ids - current_ids`
computed for column `c`. -/
def removedOf (old cur : Table) (c : String) : List String :=
  (colIds old c).filter (fun x => !(colIds cur c).contains x)

/-- Abbreviation for the added-identifier set `current_ids - old_ids`
computed for column `c`. -/
def addedOf (old cur : Table) (c : String) : List String :=
  (colIds cur c).filter (fun x => !(colIds old c).contains x)

/-! Concrete instances used by the witness and counterexample theorems. -/

/-- Example path of a first tracked file. -/
def pA : String := "../../data/current_jobs_2024.parquet"

/-- Example path of a second tracked file. -/
def pB : String := "../../data/current_jobs_2025.parquet"

/-- Example string: the empty identifier. -/
def sEmpty : String := ""

/-- Example identifier 77. -/
def s77 : String := "77"

/-- Example identifier 100. -/
def s100 : String := "100"

/-- Example identifier 1. -/
def s1 : String := "1"

/-- Example identifier 2. -/
def s2 : String := "2"

/-- Example identifier 3. -/
def s3 : String := "3"

/-- Example position title. -/
def sTitle : String := "Analyst"

/-- Example agency name. -/
def sAgency : String := "GSA"

/-- Example opening date. -/
def sDate : String := "2025-01-01"

/-- A table with `n` rows and no columns: only its row count matters. -/
def tbl (n : Nat) : Table :=
  { cols := [], rows := List.replicate n (fun _ => none) }

/-- A row holding identifier `v` in the snake_case column, null elsewhere. -/
def idRow (v : String) : String → Option String :=
  fun c => if c = snakeCol then some v else none

/-- A historical-table row with identifier and the three display fields. -/
def jobRow (v t a d : String) : String → Option String :=
  fun c =>
    if c = snakeCol then some v
    else if c = titleCol then some t
    else if c = agencyCol then some a
    else if c = openDateCol then some d
    else none

/-- History oracle that always fails to fetch. -/
def histNone : String → Option FileData := fun _ => none

/-- History oracle whose fetched bytes never parse. -/
def histUnread : String → Option FileData := fun _ => some FileData.unreadable

/-- File states for a run where the only file lost its single job. -/
def exData0 : String → FileData := fun _ => FileData.table (tbl 0)

/-- Snapshot map recording one job for the first file. -/
def exIc1 : List (String × Nat) := [(pA, 1)]

/-- File states where the first file is unreadable and the second unchanged. -/
def exDataU : String → FileData :=
  fun p => if p = pB then FileData.table (tbl 1) else FileData.unreadable

/-- Snapshot map for the unreadable-file scenario. -/
def exIcAB : List (String × Nat) := [(pA, 0), (pB, 1)]

/-- File states where the first file grew and the second is unchanged. -/
def exDataG : String → FileData :=
  fun p => if p = pA then FileData.table (tbl 2) else FileData.table (tbl 1)

/-- Snapshot map recording one job for each of the two files. -/
def exIcG : List (String × Nat) := [(pA, 1), (pB, 1)]

/-- File states where every file holds two jobs (grown since snapshot). -/
def exDataGrown : String → FileData := fun _ => FileData.table (tbl 2)

/-- Snapshot-time file states where every file is unreadable. -/
def snapU : String → FileData := fun _ => FileData.unreadable

/-- Check-time file states where every file holds three jobs. -/
def exDataCur : String → FileData := fun _ => FileData.table (tbl 3)

/-- File states where the first file lost its job and the second grew. -/
def exDataMix : String → FileData :=
  fun p => if p = pA then FileData.table (tbl 0) else FileData.table (tbl 2)

/-- Historical table for the diagnosis example: one job with full details. -/
def exOld : Table :=
  { cols := [snakeCol, titleCol, agencyCol, openDateCol]
    rows := [jobRow s100 sTitle sAgency sDate] }

/-- Current table for the diagnosis example: the job is gone. -/
def exCur : Table := { cols := [snakeCol], rows := [] }

/-- Diagnosis environment for the removed-job example. -/
def exEnv : DiagEnv :=
  { current := FileData.table exCur, historical := some (FileData.table exOld) }

/-- Historical table for the diff example: identifiers 1 and 2. -/
def exOld2 : Table := { cols := [snakeCol], rows := [idRow s1, idRow s2] }

/-- Current table for the diff example: identifiers 2 and 3. -/
def exCur2 : Table := { cols := [snakeCol], rows := [idRow s2, idRow s3] }

/-- Diagnosis environment for the diff example. -/
def exEnv4 : DiagEnv :=
  { current := FileData.table exCur2, historical := some (FileData.table exOld2) }

/-- Table whose identifier column holds an empty string and a real value. -/
def exEmptyTab : Table := { cols := [snakeCol], rows := [idRow sEmpty, idRow s77] }

/-! Helper lemmas shared by the claim theorems. -/

/-- Membership in an extracted identifier set means some row holds the value
in that column. -/
theorem mem_colIds {t : Table} {c : String} {x : String} :
    x ∈ colIds t c ↔ ∃ r ∈ t.rows, r c = some x := by
  simp [colIds, List.mem_dedup, List.mem_filterMap]

/-- Folding the identity over a mapped boolean list is `all` of the map. -/
theorem all_map_id (f : String → Bool) (m : List String) :
    (m.map f).all (fun b => b) = m.all f := by
  induction m with
  | nil => rfl
  | cons a l ih => simp [List.all_cons, ih]

/-- Looking a globbed file up in the freshly recorded snapshot yields the
count recorded for it. -/
theorem lookup0_record {files : List String} {snap : String → FileData}
    {f : String} (hmem : f ∈ files) :
    lookup0 (record_initial_job_counts files snap) f = initialCountOf (snap f) := by
  induction files with
  | nil => cases hmem
  | cons p ps ih =>
    rcases List.mem_cons.mp hmem with h | h
    · subst h
      simp [record_initial_job_counts, lookup0, List.find?]
    · by_cases hpf : p == f
      · have : p = f := by simpa using hpf
        subst this
        simp [record_initial_job_counts, lookup0, List.find?]
      · have := ih h
        simpa [record_initial_job_counts, lookup0, List.find?, hpf] using this

/-- The accumulators of the per-file loop are, respectively, the map of the
per-file check over the files, their disjunction of growth, and their filter
by shrinkage. -/
theorem checkLoop_eq (data : String → FileData) (ic : List (String × Nat))
    (files : List String) :
    checkLoop data ic files =
      (files.map (perCheck data ic), files.any (grewFile data ic),
       files.filter (shrunkFile data ic)) := by
  induction files with
  | nil => rfl
  | cons f fs ih =>
    simp only [checkLoop, ih, List.map_cons, List.any_cons, List.filter_cons]
    cases hdf : data f with
    | unreadable =>
      simp [perCheck, grewFile, shrunkFile, hdf]
    | table t =>
      by_cases h1 : t.rows.length < lookup0 ic f
      · have h2 : ¬ lookup0 ic f < t.rows.length := by omega
        simp [perCheck, grewFile, shrunkFile, hdf, h1, h2]
      · by_cases h2 : lookup0 ic f < t.rows.length
        · simp [perCheck, grewFile, shrunkFile, hdf, h1, h2]
        · simp [perCheck, grewFile, shrunkFile, hdf, h1, h2]

/-- The verdict of the checker, expressed through the per-file
specifications. -/
theorem check_fst_eq (files : List String) (data : String → FileData)
    (hist : String → Option FileData) (ic : List (String × Nat)) :
    (check_file_sizes_vs_initial files data hist ic).1 =
      if files.all (perCheck data ic) then
        { ok := true, changed := files.any (grewFile data ic) }
      else { ok := false, changed := false } := by
  simp only [check_file_sizes_vs_initial, checkLoop_eq, all_map_id]
  split <;> rfl

/-- The diagnosis reports of the checker: one per shrunken file, in order. -/
theorem check_snd_eq (files : List String) (data : String → FileData)
    (hist : String → Option FileData) (ic : List (String × Nat)) :
    (check_file_sizes_vs_initial files data hist ic).2 =
      (files.filter (shrunkFile data ic)).map (fun f =>
        diagnose_shrinkage { current := data f, historical := hist f }
          (lookup0 ic f)) := by
  simp only [check_file_sizes_vs_initial, checkLoop_eq, all_map_id]
  split <;> rfl

/-- One failing per-file check forces the failure verdict. -/
theorem check_ok_false_of_perCheck_false {files : List String}
    {data : String → FileData} {ic : List (String × Nat)} {f : String}
    (hist : String → Option FileData)
    (hmem : f ∈ files) (hfail : perCheck data ic f = false) :
    (check_file_sizes_vs_initial files data hist ic).1.ok = false := by
  have hall : files.all (perCheck data ic) = false :=
    List.all_eq_false.mpr ⟨f, hmem, by simp [hfail]⟩
  rw [check_fst_eq, hall]
  rfl

/-- When both versions load and the historical table carries an identifier
column, diagnosis reduces to the diff computation on that column. -/
theorem diagnose_eq_diffReport {env : DiagEnv} {cur old : Table} {c : String}
    (i : Nat) (hcur : env.current = FileData.table cur)
    (hhist : env.historical = some (FileData.table old))
    (hcol : idColOf old = some c) :
    diagnose_shrinkage env i = diffReport i cur old c := by
  simp only [diagnose_shrinkage, hcur, hhist]
  unfold idColOf at hcol
  by_cases h1 : snakeCol ∈ old.cols
  · rw [if_pos h1]
    rw [if_pos h1] at hcol
    cases hcol
    rfl
  · rw [if_neg h1]
    rw [if_neg h1] at hcol
    by_cases h2 : camelCol ∈ old.cols
    · rw [if_pos h2]
      rw [if_pos h2] at hcol
      cases hcol
      rfl
    · rw [if_neg h2] at hcol
      cases hcol

/-- The removed-identifier set stored in a diff report. -/
theorem diffReport_removedIds (i : Nat) (cur old : Table) (c : String)
    (h : c ∈ cur.cols) :
    (diffReport i cur old c).removedIds = removedOf old cur c := by
  simp only [diffReport, if_pos h, removedOf]
  split
  · rfl
  · split <;> rfl

/-- The added-identifier set stored in a diff report. -/
theorem diffReport_addedIds (i : Nat) (cur old : Table) (c : String)
    (h : c ∈ cur.cols) :
    (diffReport i cur old c).addedIds = addedOf old cur c := by
  simp only [diffReport, if_pos h, addedOf]
  split
  · rfl
  · split <;> rfl

/-- The detailed branch of the diff: at most ten removed identifiers are
reported with the resolved rows of the historical table. -/
theorem diffReport_detailed (i : Nat) (cur old : Table) (c : String)
    (hccur : c ∈ cur.cols) (hne : removedOf old cur c ≠ [])
    (hle : (removedOf old cur c).length ≤ 10) :
    diffReport i cur old c =
      DiagReport.detailed i cur.rows.length (removedOf old cur c)
        (addedOf old cur c)
        ((old.rows.filter (fun r =>
            match r c with
            | some v => ((removedOf old cur c).take 10).contains v
            | none => false)).map (mkJobDetail old.cols)) := by
  have hne' : (colIds old c).filter (fun x => !(colIds cur c).contains x) ≠ [] := hne
  have hle' : ((colIds old c).filter
      (fun x => !(colIds cur c).contains x)).length ≤ 10 := hle
  simp only [diffReport, if_pos hccur]
  rw [if_pos (And.intro hne' hle')]
  rfl

/-- The sampled branch of the diff: more than ten removed identifiers are
reported as the total with the first five. -/
theorem diffReport_sampled (i : Nat) (cur old : Table) (c : String)
    (hccur : c ∈ cur.cols) (hgt : 10 < (removedOf old cur c).length) :
    diffReport i cur old c =
      DiagReport.sampled i cur.rows.length (removedOf old cur c)
        (addedOf old cur c) (removedOf old cur c).length
        ((removedOf old cur c).take 5) := by
  have hne : (colIds old c).filter (fun x => !(colIds cur c).contains x) ≠ [] := by
    intro h
    have : (removedOf old cur c).length = 0 := by
      simpa [removedOf] using congrArg List.length h
    omega
  have hnot : ¬((colIds old c).filter (fun x => !(colIds cur c).contains x) ≠ [] ∧
      ((colIds old c).filter (fun x => !(colIds cur c).contains x)).length ≤ 10) := by
    rintro ⟨-, hle⟩
    have : (removedOf old cur c).length ≤ 10 := hle
    omega
  simp only [diffReport, if_pos hccur]
  rw [if_neg hnot, if_pos hne]
  rfl

/-! Claim theorems. -/

/-- C1: whenever any single tracked file has a current count lower than its
initial count, the checker returns ok = false, independent of every other
file's state. -/
theorem C1_single_loss_forces_fail
    (files : List String) (data : String → FileData)
    (hist : String → Option FileData) (ic : List (String × Nat))
    (f : String) (t : Table) (hmem : f ∈ files)
    (hdata : data f = FileData.table t)
    (hloss : t.rows.length < lookup0 ic f) :
    (check_file_sizes_vs_initial files data hist ic).1.ok = false := by
  refine check_ok_false_of_perCheck_false hist hmem ?_
  simp [perCheck, hdata, hloss]

/-- C1 witness: a single file recorded with one job that now has zero jobs
makes the checker fail. -/
theorem C1_single_loss_forces_fail_witness :
    (pA ∈ [pA] ∧ exData0 pA = FileData.table (tbl 0) ∧
      (tbl 0).rows.length < lookup0 exIc1 pA) ∧
    (check_file_sizes_vs_initial [pA] exData0 histNone exIc1).1.ok = false := by
  refine ⟨⟨by simp, rfl, by decide⟩, ?_⟩
  exact C1_single_loss_forces_fail [pA] exData0 histNone exIc1 pA (tbl 0)
    (by simp) rfl (by decide)

/-- C2 (counterexample): file A is unreadable at check time and the only
readable file B is unchanged, so a verdict reflecting only the readable
files would be ok = true; the code instead counts the read error as a failed
check and returns ok = false. -/
theorem C2_read_error_cex :
    exDataU pA = FileData.unreadable ∧
    exDataU pB = FileData.table (tbl 1) ∧
    (tbl 1).rows.length = lookup0 exIcAB pB ∧
    (check_file_sizes_vs_initial [pA, pB] exDataU histNone exIcAB).1.ok = false :=
  ⟨rfl, rfl, by decide, by decide⟩

/-- C2 (amended): a tracked file unreadable at check time is recorded as a
file-scoped failed check and itself forces ok = false, like loss; it is
surfaced distinctly from loss in that the file is never added to the
shrunken list, so no shrinkage diagnosis runs for it. -/
theorem C2_read_error_fails_check
    (files : List String) (data : String → FileData)
    (hist : String → Option FileData) (ic : List (String × Nat))
    (f : String) (hmem : f ∈ files) (hu : data f = FileData.unreadable) :
    (check_file_sizes_vs_initial files data hist ic).1.ok = false ∧
    f ∉ (checkLoop data ic files).2.2 := by
  constructor
  · exact check_ok_false_of_perCheck_false hist hmem (by simp [perCheck, hu])
  · rw [checkLoop_eq]
    intro hf
    have hs := (List.mem_filter.mp hf).2
    simp [shrunkFile, hu] at hs

/-- C2 witness for the amended claim: the unreadable file A fails the run
and is absent from the shrunken list. -/
theorem C2_read_error_fails_check_witness :
    (pA ∈ [pA, pB] ∧ exDataU pA = FileData.unreadable) ∧
    (check_file_sizes_vs_initial [pA, pB] exDataU histNone exIcAB).1.ok = false ∧
    pA ∉ (checkLoop exDataU exIcAB [pA, pB]).2.2 := by
  have h := C2_read_error_fails_check [pA, pB] exDataU histNone exIcAB pA
    (by simp) rfl
  exact ⟨⟨by simp, rfl⟩, h.1, h.2⟩

/-- C3: when every tracked file is readable and none lost jobs, the checker
returns ok = true, and changed = true exactly when at least one file
grew. -/
theorem C3_all_kept_passes
    (files : List String) (data : String → FileData)
    (hist : String → Option FileData) (ic : List (String × Nat))
    (hok : ∀ f ∈ files, ∃ t, data f = FileData.table t ∧
      lookup0 ic f ≤ t.rows.length) :
    (check_file_sizes_vs_initial files data hist ic).1.ok = true ∧
    ((check_file_sizes_vs_initial files data hist ic).1.changed = true ↔
      ∃ f ∈ files, ∃ t, data f = FileData.table t ∧
        lookup0 ic f < t.rows.length) := by
  have hall : files.all (perCheck data ic) = true := by
    rw [List.all_eq_true]
    intro f hf
    obtain ⟨t, hdt, hle⟩ := hok f hf
    simp only [perCheck, hdt]
    simp
    omega
  rw [check_fst_eq, if_pos hall]
  refine ⟨rfl, ?_⟩
  show List.any files (grewFile data ic) = true ↔ _
  rw [List.any_eq_true]
  constructor
  · rintro ⟨f, hf, hg⟩
    obtain ⟨t, hdt, _⟩ := hok f hf
    refine ⟨f, hf, t, hdt, ?_⟩
    simpa [grewFile, hdt] using hg
  · rintro ⟨f, hf, t, hdt, hlt⟩
    exact ⟨f, hf, by simp [grewFile, hdt, hlt]⟩

/-- C3 witness: two readable files, one grown and one unchanged, give
ok = true and changed = true. -/
theorem C3_all_kept_passes_witness :
    (check_file_sizes_vs_initial [pA, pB] exDataG histNone exIcG).1.ok = true ∧
    (check_file_sizes_vs_initial [pA, pB] exDataG histNone exIcG).1.changed = true := by
  have hyp : ∀ f ∈ [pA, pB], ∃ t, exDataG f = FileData.table t ∧
      lookup0 exIcG f ≤ t.rows.length := by
    intro f hf
    rcases List.mem_cons.mp hf with h1 | h1
    · subst h1
      exact ⟨tbl 2, rfl, by decide⟩
    · have h2 : f = pB := by simpa using h1
      subst h2
      exact ⟨tbl 1, rfl, by decide⟩
  have h := C3_all_kept_passes [pA, pB] exDataG histNone exIcG hyp
  exact ⟨h.1, h.2.mpr ⟨pA, by simp, tbl 2, rfl, by decide⟩⟩

/-- C4: the diff computed during diagnosis satisfies removed = historical −
current and added = current − historical, and the two sets are disjoint. -/
theorem C4_diff_sets
    (env : DiagEnv) (cur old : Table) (c : String) (i : Nat)
    (hcur : env.current = FileData.table cur)
    (hhist : env.historical = some (FileData.table old))
    (hcol : idColOf old = some c) (hccur : c ∈ cur.cols) :
    (∀ x, x ∈ (diagnose_shrinkage env i).removedIds ↔
      x ∈ colIds old c ∧ x ∉ colIds cur c) ∧
    (∀ x, x ∈ (diagnose_shrinkage env i).addedIds ↔
      x ∈ colIds cur c ∧ x ∉ colIds old c) ∧
    (∀ x, x ∈ (diagnose_shrinkage env i).removedIds →
      x ∉ (diagnose_shrinkage env i).addedIds) := by
  have hd := diagnose_eq_diffReport i hcur hhist hcol
  have h1 : ∀ x, x ∈ (diagnose_shrinkage env i).removedIds ↔
      x ∈ colIds old c ∧ x ∉ colIds cur c := by
    intro x
    rw [hd, diffReport_removedIds i cur old c hccur, removedOf]
    simp [List.mem_filter, List.elem_iff]
  have h2 : ∀ x, x ∈ (diagnose_shrinkage env i).addedIds ↔
      x ∈ colIds cur c ∧ x ∉ colIds old c := by
    intro x
    rw [hd, diffReport_addedIds i cur old c hccur, addedOf]
    simp [List.mem_filter, List.elem_iff]
  exact ⟨h1, h2, fun x hx hx2 => ((h2 x).mp hx2).2 ((h1 x).mp hx).1⟩

/-- C4 witness: historical identifiers 1 and 2 against current identifiers
2 and 3: identifier 1 is removed and is not among the added ones. -/
theorem C4_diff_sets_witness :
    s1 ∈ (diagnose_shrinkage exEnv4 2).removedIds ∧
    s1 ∉ (diagnose_shrinkage exEnv4 2).addedIds := by
  have h := C4_diff_sets exEnv4 exCur2 exOld2 snakeCol 2 rfl rfl
    (by decide) (by decide)
  have hm : s1 ∈ (diagnose_shrinkage exEnv4 2).removedIds :=
    (h.1 s1).mpr ⟨by decide, by decide⟩
  exact ⟨hm, h.2.2 s1 hm⟩

/-- C5: with the historical version parsed and the selected identifier
column present in both tables, a non-empty removed set of at most ten
identifiers is reported in full, every removed identifier resolved back to a
historical row whose printed details (title, agency, opening date fields)
appear in the report; more than ten removed identifiers are reported as the
total count plus the first five identifiers instead of the full list. -/
theorem C5_removed_reporting
    (env : DiagEnv) (cur old : Table) (c : String) (i : Nat)
    (hcur : env.current = FileData.table cur)
    (hhist : env.historical = some (FileData.table old))
    (hcol : idColOf old = some c) (hccur : c ∈ cur.cols) :
    (removedOf old cur c ≠ [] → (removedOf old cur c).length ≤ 10 →
      ∃ dts, diagnose_shrinkage env i =
          DiagReport.detailed i cur.rows.length (removedOf old cur c)
            (addedOf old cur c) dts ∧
        ∀ x ∈ removedOf old cur c, ∃ r ∈ old.rows,
          r c = some x ∧ mkJobDetail old.cols r ∈ dts) ∧
    (10 < (removedOf old cur c).length →
      diagnose_shrinkage env i =
        DiagReport.sampled i cur.rows.length (removedOf old cur c)
          (addedOf old cur c) (removedOf old cur c).length
          ((removedOf old cur c).take 5)) := by
  have hd := diagnose_eq_diffReport i hcur hhist hcol
  constructor
  · intro hne hle
    rw [hd, diffReport_detailed i cur old c hccur hne hle]
    refine ⟨_, rfl, ?_⟩
    intro x hx
    have hxold : x ∈ colIds old c := (List.mem_filter.mp hx).1
    obtain ⟨r, hr, hrc⟩ := mem_colIds.mp hxold
    refine ⟨r, hr, hrc, ?_⟩
    apply List.mem_map_of_mem
    apply List.mem_filter.mpr
    refine ⟨hr, ?_⟩
    simp only [hrc]
    rw [List.take_of_length_le hle]
    exact List.elem_iff.mpr hx
  · intro hgt
    rw [hd, diffReport_sampled i cur old c hccur hgt]

/-- C5 witness: the single removed identifier of the concrete example is
reported through the detailed branch. -/
theorem C5_removed_reporting_witness :
    (diagnose_shrinkage exEnv 1).removedIds = [s100] := by
  have h := C5_removed_reporting exEnv exCur exOld snakeCol 1 rfl rfl
    (by decide) (by decide)
  obtain ⟨dts, heq, -⟩ := h.1 (by decide) (by decide)
  rw [heq]
  show removedOf exOld exCur snakeCol = [s100]
  decide

/-- C10: on the failure path the checker discards growth information:
whenever it returns ok = false it also returns changed = false. -/
theorem C10_fail_discards_growth
    (files : List String) (data : String → FileData)
    (hist : String → Option FileData) (ic : List (String × Nat))
    (h : (check_file_sizes_vs_initial files data hist ic).1.ok = false) :
    (check_file_sizes_vs_initial files data hist ic).1.changed = false := by
  rw [check_fst_eq] at h ⊢
  by_cases hc : files.all (perCheck data ic)
  · rw [if_pos hc] at h
    exact absurd h (by simp)
  · rw [if_neg hc]

/-- C10 witness: one file lost its job while the other grew; the run fails
and the growth is not reported through changed. -/
theorem C10_fail_discards_growth_witness :
    (check_file_sizes_vs_initial [pA, pB] exDataMix histNone exIcG).1.ok = false ∧
    (check_file_sizes_vs_initial [pA, pB] exDataMix histNone exIcG).1.changed = false :=
  ⟨by decide, C10_fail_discards_growth [pA, pB] exDataMix histNone exIcG (by decide)⟩

/-- C6 (counterexample): the checker is a pure function of the snapshot map
and the file states, so a second run against the same snapshot with
unchanged file states returns exactly the first run's verdict.  Here the
file grew between snapshotting and the first check; the second, identical
run therefore still reports changed = true, not changed = false. -/
theorem C6_second_run_cex :
    (check_file_sizes_vs_initial [pA] exDataGrown histNone exIc1).1.changed = true ∧
    check_file_sizes_vs_initial [pA] exDataGrown histNone exIc1 =
      check_file_sizes_vs_initial [pA] exDataGrown histNone exIc1 :=
  ⟨by decide, rfl⟩

/-- C6 (amended): a second checker run reports changed = false when the
snapshot it runs against is re-taken from the current, unchanged file states
(as the Snapshot Store does at the start of every pipeline run); against the
original snapshot it merely repeats the first run's verdict. -/
theorem C6_fresh_snapshot_unchanged
    (files : List String) (snap : String → FileData)
    (hist : String → Option FileData) :
    (check_file_sizes_vs_initial files snap hist
      (record_initial_job_counts files snap)).1.changed = false := by
  have hany : files.any (grewFile snap (record_initial_job_counts files snap)) = false := by
    rw [List.any_eq_false]
    intro f hf
    cases hdf : snap f with
    | unreadable => simp [grewFile, hdf]
    | table t =>
      have hl : lookup0 (record_initial_job_counts files snap) f = t.rows.length := by
        rw [lookup0_record hf, hdf]
        rfl
      simp [grewFile, hdf, hl]
  rw [check_fst_eq]
  by_cases hc : files.all (perCheck snap (record_initial_job_counts files snap))
  · rw [if_pos hc]
    exact hany
  · rw [if_neg hc]

/-- C7: a file unreadable at snapshot time is recorded with initial count
zero and the run continues; at check time such a file can never be
classified as loss — it is never marked shrunken, and any positive current
count lands in the growth branch. -/
theorem C7_unreadable_snapshot_is_zero
    (files files₂ : List String) (snap cur : String → FileData)
    (f : String) (hmem : f ∈ files) (hu : snap f = FileData.unreadable) :
    lookup0 (record_initial_job_counts files snap) f = 0 ∧
    f ∉ (checkLoop cur (record_initial_job_counts files snap) files₂).2.2 ∧
    (∀ t : Table, cur f = FileData.table t → 0 < t.rows.length →
      grewFile cur (record_initial_job_counts files snap) f = true) := by
  have hz : lookup0 (record_initial_job_counts files snap) f = 0 := by
    rw [lookup0_record hmem, hu]
    rfl
  refine ⟨hz, ?_, ?_⟩
  · rw [checkLoop_eq]
    intro hf
    have hs := (List.mem_filter.mp hf).2
    cases hdf : cur f with
    | unreadable => simp [shrunkFile, hdf] at hs
    | table t => simp [shrunkFile, hdf, hz] at hs
  · intro t hdt hpos
    simp [grewFile, hdt, hz, hpos]

/-- C7 witness: a file unreadable at snapshot time and holding three jobs at
check time has baseline zero, is not shrunken, and counts as growth. -/
theorem C7_unreadable_snapshot_is_zero_witness :
    lookup0 (record_initial_job_counts [pA] snapU) pA = 0 ∧
    pA ∉ (checkLoop exDataCur (record_initial_job_counts [pA] snapU) [pA]).2.2 ∧
    grewFile exDataCur (record_initial_job_counts [pA] snapU) pA = true := by
  have h := C7_unreadable_snapshot_is_zero [pA] [pA] snapU exDataCur pA
    (by simp) rfl
  exact ⟨h.1, h.2.1, h.2.2 (tbl 3) rfl (by decide)⟩

/-- C8 (counterexample): the extractor only drops null identifiers
(`dropna`); an empty-string identifier is kept in the extracted set, against
the claim that empty identifier values are excluded. -/
theorem C8_empty_string_kept_cex :
    exEmptyTab.rows.length = 2 ∧
    sEmpty ∈ save_initial_snapshot (FileData.table exEmptyTab) := by
  exact ⟨rfl, by decide⟩

/-- C8 (amended): the extractor returns the identifier values of the
snake_case column when present, else of the camelCase column, else the empty
set (also for an unreadable file); null (missing) values are excluded, but
empty-string values are retained like any other string. -/
theorem C8_extractor_membership
    (t : Table) (x : String) :
    (x ∈ save_initial_snapshot (FileData.table t) ↔
      ((snakeCol ∈ t.cols ∧ ∃ r ∈ t.rows, r snakeCol = some x) ∨
       (snakeCol ∉ t.cols ∧ camelCol ∈ t.cols ∧
         ∃ r ∈ t.rows, r camelCol = some x))) ∧
    save_initial_snapshot FileData.unreadable = [] := by
  refine ⟨?_, rfl⟩
  by_cases h1 : snakeCol ∈ t.cols
  · simp [save_initial_snapshot, if_pos h1, mem_colIds, h1]
  · by_cases h2 : camelCol ∈ t.cols
    · simp [save_initial_snapshot, if_neg h1, if_pos h2, mem_colIds, h1, h2]
    · simp [save_initial_snapshot, if_neg h1, if_neg h2, h1, h2]

/-- C8 witness for the amended claim: the non-empty identifier of the
example table is extracted from its snake_case column. -/
theorem C8_extractor_membership_witness :
    s77 ∈ save_initial_snapshot (FileData.table exEmptyTab) := by
  have h := C8_extractor_membership exEmptyTab s77
  refine h.1.mpr (Or.inl ⟨by decide, idRow s77, ?_, by decide⟩)
  exact List.mem_cons_of_mem _ (List.mem_cons_self _ _)

/-- C9: diagnosis failures stay file-scoped and cannot influence the
verdict: the checker's verdict is the same under any two history oracles,
one diagnosis report is produced per shrunken file regardless of errors,
and a non-empty shrunken list already forces ok = false. -/
theorem C9_diagnosis_cannot_change_verdict
    (files : List String) (data : String → FileData) (ic : List (String × Nat))
    (hist₁ hist₂ : String → Option FileData) :
    (check_file_sizes_vs_initial files data hist₁ ic).1 =
      (check_file_sizes_vs_initial files data hist₂ ic).1 ∧
    (check_file_sizes_vs_initial files data hist₁ ic).2.length =
      (checkLoop data ic files).2.2.length ∧
    ((checkLoop data ic files).2.2 ≠ [] →
      (check_file_sizes_vs_initial files data hist₁ ic).1.ok = false) ∧
    (∀ f ∈ (checkLoop data ic files).2.2, hist₁ f = some FileData.unreadable →
      DiagReport.errorDiag ∈ (check_file_sizes_vs_initial files data hist₁ ic).2) := by
  refine ⟨?_, ?_, ?_, ?_⟩
  · rw [check_fst_eq, check_fst_eq]
  · rw [check_snd_eq, checkLoop_eq]
    exact List.length_map _ _
  · intro hne
    rw [checkLoop_eq] at hne
    have hex : ∃ f, f ∈ files.filter (shrunkFile data ic) :=
      List.exists_mem_of_ne_nil _ hne
    obtain ⟨f, hf⟩ := hex
    have hmem := (List.mem_filter.mp hf).1
    have hs := (List.mem_filter.mp hf).2
    refine check_ok_false_of_perCheck_false hist₁ hmem ?_
    cases hdf : data f with
    | unreadable => simp [perCheck, hdf]
    | table t =>
      simp only [shrunkFile, hdf] at hs
      have hlt : t.rows.length < lookup0 ic f := of_decide_eq_true hs
      simp [perCheck, hdf, hlt]
  · intro f hf hup
    rw [checkLoop_eq] at hf
    have hs := (List.mem_filter.mp hf).2
    rw [check_snd_eq]
    have hrep : diagnose_shrinkage { current := data f, historical := hist₁ f }
        (lookup0 ic f) = DiagReport.errorDiag := by
      cases hdf : data f with
      | unreadable => simp [diagnose_shrinkage, hdf]
      | table t => simp [diagnose_shrinkage, hdf, hup]
    exact hrep ▸ List.mem_map_of_mem _ hf

/-- C9 witness: a shrunken file whose historical bytes fail to parse still
yields one (error) report, and the verdict matches the one under an oracle
that finds no history at all. -/
theorem C9_diagnosis_cannot_change_verdict_witness :
    (check_file_sizes_vs_initial [pA] exData0 histUnread exIc1).1 =
      (check_file_sizes_vs_initial [pA] exData0 histNone exIc1).1 ∧
    (check_file_sizes_vs_initial [pA] exData0 histUnread exIc1).2.length = 1 ∧
    (check_file_sizes_vs_initial [pA] exData0 histUnread exIc1).1.ok = false ∧
    DiagReport.errorDiag ∈ (check_file_sizes_vs_initial [pA] exData0 histUnread exIc1).2 := by
  have h := C9_diagnosis_cannot_change_verdict [pA] exData0 exIc1 histUnread histNone
  refine ⟨h.1, h.2.1.trans (by decide), h.2.2.1 (by decide), ?_⟩
  refine h.2.2.2 pA ?_ rfl
  rw [checkLoop_eq]
  decide

end Pipeline
